import Mathlib

/-!
Verification of the quill re-export shim and its TypeScript declaration
surface (src/quill.ts).  The file has two parts in the source: a shim that
re-exports the editor constructor from an internal core module without
pre-registering any formatting modules, and a declaration-only description
of the editor's public API (interfaces, type aliases, class declarations).

We shallowly embed the declaration surface as concrete data (field lists,
method signatures, overload lists) translated clause by clause from the
source, together with small executable semantics for the parts the claims
need: TypeScript structural conformance of runtime objects to declared
field lists, single-argument overload resolution, code emission of ambient
declarations, and (modelled from the spec, since the core module is not in
src) the registration behaviour of the exported constructor.
-/

/-- The TypeScript types appearing in the declaration surface of
src/quill.ts, embedded as a closed syntax.  Named imported types
(Delta, Parchment.Registry, DOM types, the declared interfaces) are
atoms; unions, arrays, string/boolean literal types, pairs and function
types of the arities used in the file are structural. -/
inductive TsType where
  | num
  | str
  | boolT
  | anyT
  | voidT
  | nullT
  | strLit (s : String)
  | boolLit (b : Bool)
  | delta
  | stringMap
  | rangeStatic
  | boundsStatic
  | eventEmitter
  | registryT
  | htmlElement
  | elementT
  | nodeT
  | blotT
  | htmlDivElement
  | clipboardStatic
  | keyboardStatic
  | quillT
  | union (a b : TsType)
  | arr (t : TsType)
  | tup2 (a b : TsType)
  | fn2 (a b ret : TsType)
  | fn3 (a b c ret : TsType)
  | fn4 (a b c d ret : TsType)
deriving DecidableEq, Repr

/-- `Sources` from src/quill.ts line 44: the union of the three source
string literal types. -/
def sourcesTy : TsType :=
  .union (.strLit "api") (.union (.strLit "user") (.strLit "silent"))

/-- `TextChangeHandler` from src/quill.ts line 62:
`(delta: Delta, oldContents: Delta, source: Sources) => any`. -/
def TextChangeHandler : TsType := .fn3 .delta .delta sourcesTy .anyT

/-- `SelectionChangeHandler` from src/quill.ts line 63:
`(range: RangeStatic, oldRange: RangeStatic, source: Sources) => any`. -/
def SelectionChangeHandler : TsType := .fn3 .rangeStatic .rangeStatic sourcesTy .anyT

/-- `EditorChangeHandler` from src/quill.ts lines 64-66: the union of a
text-change-shaped and a selection-change-shaped four-argument handler. -/
def EditorChangeHandler : TsType :=
  .union
    (.fn4 (.strLit "text-change") .delta .delta sourcesTy .anyT)
    (.fn4 (.strLit "selection-change") .rangeStatic .rangeStatic sourcesTy .anyT)

/-- One declared field (property) of an interface or object type:
its name, whether it is marked optional with `?`, and its type. -/
structure FieldDecl where
  name : String
  optional : Bool
  type : TsType
deriving DecidableEq, Repr

/-- Fields of `interface RangeStatic` (src/quill.ts lines 148-151). -/
def rangeStaticFields : List FieldDecl :=
  [⟨"index", false, .num⟩,
   ⟨"length", false, .num⟩]

/-- Instance fields of `class RangeStatic` (src/quill.ts lines 153-157). -/
def rangeStaticClassFields : List FieldDecl :=
  [⟨"index", false, .num⟩,
   ⟨"length", false, .num⟩]

/-- Fields of `interface BoundsStatic` (src/quill.ts lines 139-146),
in source order. -/
def boundsStaticFields : List FieldDecl :=
  [⟨"bottom", false, .num⟩,
   ⟨"left", false, .num⟩,
   ⟨"right", false, .num⟩,
   ⟨"top", false, .num⟩,
   ⟨"height", false, .num⟩,
   ⟨"width", false, .num⟩]

/-- Fields of `interface QuillOptionsStatic` (src/quill.ts lines 84-137),
in source order; every field carries the `?` optional marker. -/
def quillOptionsStaticFields : List FieldDecl :=
  [⟨"debug", true, .union .str .boolT⟩,
   ⟨"modules", true, .stringMap⟩,
   ⟨"placeholder", true, .str⟩,
   ⟨"readOnly", true, .boolT⟩,
   ⟨"theme", true, .str⟩,
   ⟨"formats", true, .arr .str⟩,
   ⟨"bounds", true, .union .htmlElement .str⟩,
   ⟨"scrollingContainer", true, .union .htmlElement .str⟩,
   ⟨"strict", true, .boolT⟩,
   ⟨"registry", true, .registryT⟩]

/-- Fields of `interface OptionalAttributes` (src/quill.ts lines 58-60). -/
def optionalAttributesFields : List FieldDecl :=
  [⟨"attributes", true, .stringMap⟩]

/-- Fields of the object-literal part of the `DeltaOperation` type alias
(src/quill.ts line 43): `{ insert?: any; delete?: number; retain?: number }`. -/
def deltaOperationBaseFields : List FieldDecl :=
  [⟨"insert", true, .anyT⟩,
   ⟨"delete", true, .num⟩,
   ⟨"retain", true, .num⟩]

/-- The full field list of `DeltaOperation = {...} & OptionalAttributes`
(src/quill.ts line 43): the intersection flattens to the concatenation of
the two field lists. -/
def deltaOperationFields : List FieldDecl :=
  deltaOperationBaseFields ++ optionalAttributesFields

/-- A runtime JavaScript value, to the precision needed to check structural
conformance against the declared types: numbers, strings, booleans, null,
and plain objects abstracted to their key set. -/
inductive RtVal where
  | num (n : Int)
  | str (s : String)
  | boolV (b : Bool)
  | nullV
  | objV (keys : List String)
deriving DecidableEq, Repr

/-- TypeScript structural matching of a runtime value against a declared
type: `any` accepts everything, primitive types accept values of that
primitive, `StringMap` accepts any object, literal types accept the exact
literal, and a union accepts a value either side accepts. -/
def typeMatches : TsType → RtVal → Bool
  | .anyT, _ => true
  | .num, .num _ => true
  | .str, .str _ => true
  | .boolT, .boolV _ => true
  | .stringMap, .objV _ => true
  | .nullT, .nullV => true
  | .strLit s, .str s2 => s == s2
  | .boolLit b, .boolV b2 => b == b2
  | .union a b, v => typeMatches a v || typeMatches b v
  | _, _ => false

/-- A runtime object as a list of key/value pairs. -/
def RtObj : Type := List (String × RtVal)

/-- TypeScript structural conformance of an object against a declared
field list: every declared field is either present with a matching value,
or absent and marked optional. -/
def conforms (fields : List FieldDecl) (obj : RtObj) : Bool :=
  fields.all fun f =>
    match List.lookup f.name obj with
    | some v => typeMatches f.type v
    | none => f.optional

/-- Whether a declared field list marks the field `n` optional. -/
def fieldOptional (fields : List FieldDecl) (n : String) : Bool :=
  fields.any fun f => f.name == n && f.optional

/-- One declared parameter of a method signature: its name, whether it is
marked optional with `?`, and its type. -/
structure ParamDecl where
  name : String
  optional : Bool
  type : TsType
deriving DecidableEq, Repr

/-- One declared method signature (one overload line in the source). -/
structure MethodSig where
  name : String
  params : List ParamDecl
  ret : TsType
deriving DecidableEq, Repr

/-- The instance method signatures declared on `class Quill`
(src/quill.ts lines 179-251), one entry per overload line, in source
order.  The event-subscription overloads (lines 243-251) are also listed
separately below as `quillEventOverloads`. -/
def quillMethods : List MethodSig :=
  [⟨"deleteText", [⟨"index", false, .num⟩, ⟨"length", false, .num⟩, ⟨"source", true, sourcesTy⟩], .delta⟩,
   ⟨"disable", [], .voidT⟩,
   ⟨"enable", [⟨"enabled", true, .boolT⟩], .voidT⟩,
   ⟨"getContents", [⟨"index", true, .num⟩, ⟨"length", true, .num⟩], .delta⟩,
   ⟨"getLength", [], .num⟩,
   ⟨"getText", [⟨"index", true, .num⟩, ⟨"length", true, .num⟩], .str⟩,
   ⟨"insertEmbed", [⟨"index", false, .num⟩, ⟨"type", false, .str⟩, ⟨"value", false, .anyT⟩, ⟨"source", true, sourcesTy⟩], .delta⟩,
   ⟨"insertText", [⟨"index", false, .num⟩, ⟨"text", false, .str⟩, ⟨"source", true, sourcesTy⟩], .delta⟩,
   ⟨"insertText", [⟨"index", false, .num⟩, ⟨"text", false, .str⟩, ⟨"format", false, .str⟩, ⟨"value", false, .anyT⟩, ⟨"source", true, sourcesTy⟩], .delta⟩,
   ⟨"insertText", [⟨"index", false, .num⟩, ⟨"text", false, .str⟩, ⟨"formats", false, .stringMap⟩, ⟨"source", true, sourcesTy⟩], .delta⟩,
   ⟨"pasteHTML", [⟨"index", false, .num⟩, ⟨"html", false, .str⟩, ⟨"source", true, sourcesTy⟩], .str⟩,
   ⟨"pasteHTML", [⟨"html", false, .str⟩, ⟨"source", true, sourcesTy⟩], .str⟩,
   ⟨"setContents", [⟨"delta", false, .delta⟩, ⟨"source", true, sourcesTy⟩], .delta⟩,
   ⟨"setText", [⟨"text", false, .str⟩, ⟨"source", true, sourcesTy⟩], .delta⟩,
   ⟨"update", [⟨"source", true, sourcesTy⟩], .voidT⟩,
   ⟨"updateContents", [⟨"delta", false, .delta⟩, ⟨"source", true, sourcesTy⟩], .delta⟩,
   ⟨"format", [⟨"name", false, .str⟩, ⟨"value", false, .anyT⟩, ⟨"source", true, sourcesTy⟩], .delta⟩,
   ⟨"formatLine", [⟨"index", false, .num⟩, ⟨"length", false, .num⟩, ⟨"source", true, sourcesTy⟩], .delta⟩,
   ⟨"formatLine", [⟨"index", false, .num⟩, ⟨"length", false, .num⟩, ⟨"format", false, .str⟩, ⟨"value", false, .anyT⟩, ⟨"source", true, sourcesTy⟩], .delta⟩,
   ⟨"formatLine", [⟨"index", false, .num⟩, ⟨"length", false, .num⟩, ⟨"formats", false, .stringMap⟩, ⟨"source", true, sourcesTy⟩], .delta⟩,
   ⟨"formatText", [⟨"index", false, .num⟩, ⟨"length", false, .num⟩, ⟨"source", true, sourcesTy⟩], .delta⟩,
   ⟨"formatText", [⟨"index", false, .num⟩, ⟨"length", false, .num⟩, ⟨"format", false, .str⟩, ⟨"value", false, .anyT⟩, ⟨"source", true, sourcesTy⟩], .delta⟩,
   ⟨"formatText", [⟨"index", false, .num⟩, ⟨"length", false, .num⟩, ⟨"formats", false, .stringMap⟩, ⟨"source", true, sourcesTy⟩], .delta⟩,
   ⟨"formatText", [⟨"range", false, .rangeStatic⟩, ⟨"format", false, .str⟩, ⟨"value", false, .anyT⟩, ⟨"source", true, sourcesTy⟩], .delta⟩,
   ⟨"formatText", [⟨"range", false, .rangeStatic⟩, ⟨"formats", false, .stringMap⟩, ⟨"source", true, sourcesTy⟩], .delta⟩,
   ⟨"getFormat", [⟨"range", true, .rangeStatic⟩], .stringMap⟩,
   ⟨"getFormat", [⟨"index", false, .num⟩, ⟨"length", true, .num⟩], .stringMap⟩,
   ⟨"removeFormat", [⟨"index", false, .num⟩, ⟨"length", false, .num⟩, ⟨"source", true, sourcesTy⟩], .delta⟩,
   ⟨"blur", [], .voidT⟩,
   ⟨"focus", [], .voidT⟩,
   ⟨"getBounds", [⟨"index", false, .num⟩, ⟨"length", true, .num⟩], .boundsStatic⟩,
   ⟨"getSelection", [⟨"focus", false, .boolLit true⟩], .rangeStatic⟩,
   ⟨"getSelection", [⟨"focus", true, .boolLit false⟩], .union .rangeStatic .nullT⟩,
   ⟨"hasFocus", [], .boolT⟩,
   ⟨"setSelection", [⟨"index", false, .num⟩, ⟨"length", false, .num⟩, ⟨"source", true, sourcesTy⟩], .voidT⟩,
   ⟨"setSelection", [⟨"range", false, .rangeStatic⟩, ⟨"source", true, sourcesTy⟩], .voidT⟩,
   ⟨"addContainer", [⟨"classNameOrDomNode", false, .union .str .nodeT⟩, ⟨"refNode", true, .nodeT⟩], .anyT⟩,
   ⟨"getModule", [⟨"name", false, .str⟩], .anyT⟩,
   ⟨"getIndex", [⟨"blot", false, .anyT⟩], .num⟩,
   ⟨"getLeaf", [⟨"index", false, .num⟩], .anyT⟩,
   ⟨"getLine", [⟨"index", false, .num⟩], .tup2 .anyT .num⟩,
   ⟨"getLines", [⟨"index", true, .num⟩, ⟨"length", true, .num⟩], .arr .anyT⟩,
   ⟨"getLines", [⟨"range", false, .rangeStatic⟩], .arr .anyT⟩,
   ⟨"on", [⟨"eventName", false, .strLit "text-change"⟩, ⟨"handler", false, TextChangeHandler⟩], .eventEmitter⟩,
   ⟨"on", [⟨"eventName", false, .strLit "selection-change"⟩, ⟨"handler", false, SelectionChangeHandler⟩], .eventEmitter⟩,
   ⟨"on", [⟨"eventName", false, .strLit "editor-change"⟩, ⟨"handler", false, EditorChangeHandler⟩], .eventEmitter⟩,
   ⟨"once", [⟨"eventName", false, .strLit "text-change"⟩, ⟨"handler", false, TextChangeHandler⟩], .eventEmitter⟩,
   ⟨"once", [⟨"eventName", false, .strLit "selection-change"⟩, ⟨"handler", false, SelectionChangeHandler⟩], .eventEmitter⟩,
   ⟨"once", [⟨"eventName", false, .strLit "editor-change"⟩, ⟨"handler", false, EditorChangeHandler⟩], .eventEmitter⟩,
   ⟨"off", [⟨"eventName", false, .strLit "text-change"⟩, ⟨"handler", false, TextChangeHandler⟩], .eventEmitter⟩,
   ⟨"off", [⟨"eventName", false, .strLit "selection-change"⟩, ⟨"handler", false, SelectionChangeHandler⟩], .eventEmitter⟩,
   ⟨"off", [⟨"eventName", false, .strLit "editor-change"⟩, ⟨"handler", false, EditorChangeHandler⟩], .eventEmitter⟩]

/-- One event-subscription overload: the method it belongs to, the event
name string literal it accepts, the handler parameter's type, and the
declared return type. -/
structure EventOverload where
  method : String
  eventName : String
  handler : TsType
  ret : TsType
deriving DecidableEq, Repr

/-- The nine overloads of `interface EventEmitter`
(src/quill.ts lines 159-169), in source order. -/
def eventEmitterOverloads : List EventOverload :=
  [⟨"on", "text-change", TextChangeHandler, .eventEmitter⟩,
   ⟨"on", "selection-change", SelectionChangeHandler, .eventEmitter⟩,
   ⟨"on", "editor-change", EditorChangeHandler, .eventEmitter⟩,
   ⟨"once", "text-change", TextChangeHandler, .eventEmitter⟩,
   ⟨"once", "selection-change", SelectionChangeHandler, .eventEmitter⟩,
   ⟨"once", "editor-change", EditorChangeHandler, .eventEmitter⟩,
   ⟨"off", "text-change", TextChangeHandler, .eventEmitter⟩,
   ⟨"off", "selection-change", SelectionChangeHandler, .eventEmitter⟩,
   ⟨"off", "editor-change", EditorChangeHandler, .eventEmitter⟩]

/-- The nine event-subscription overloads declared on `class Quill`
(src/quill.ts lines 243-251), in source order. -/
def quillEventOverloads : List EventOverload :=
  [⟨"on", "text-change", TextChangeHandler, .eventEmitter⟩,
   ⟨"on", "selection-change", SelectionChangeHandler, .eventEmitter⟩,
   ⟨"on", "editor-change", EditorChangeHandler, .eventEmitter⟩,
   ⟨"once", "text-change", TextChangeHandler, .eventEmitter⟩,
   ⟨"once", "selection-change", SelectionChangeHandler, .eventEmitter⟩,
   ⟨"once", "editor-change", EditorChangeHandler, .eventEmitter⟩,
   ⟨"off", "text-change", TextChangeHandler, .eventEmitter⟩,
   ⟨"off", "selection-change", SelectionChangeHandler, .eventEmitter⟩,
   ⟨"off", "editor-change", EditorChangeHandler, .eventEmitter⟩]

/-- The event names for which `method` has an overload, in declaration
order. -/
def eventNamesOf (ovs : List EventOverload) (method : String) : List String :=
  (ovs.filter fun o => o.method == method).map (fun o => o.eventName)

/-- The handler types that `method` accepts for event `ev`. -/
def handlersFor (ovs : List EventOverload) (method ev : String) : List TsType :=
  (ovs.filter fun o => o.method == method && o.eventName == ev).map (fun o => o.handler)

/-- Whether a declared single parameter accepts a call-site boolean
argument (`none` = argument omitted): an omitted argument is accepted
exactly when the parameter is optional, and a supplied boolean is checked
against the parameter's declared type. -/
def paramAccepts (p : ParamDecl) : Option Bool → Bool
  | none => p.optional
  | some b =>
    match p.type with
    | .boolLit c => b == c
    | .boolT => true
    | .anyT => true
    | _ => false

/-- TypeScript overload resolution for a call of a single-boolean-argument
method: the first declared overload whose parameter list accepts the
argument wins, and the call's type is that overload's return type. -/
def resolveBoolCall (name : String) (arg : Option Bool) : Option TsType :=
  ((quillMethods.filter fun m => m.name == name).find? fun m =>
    match m.params with
    | [p] => paramAccepts p arg
    | _ => false).map (fun m => m.ret)

/-- Whether a declared type admits the value `null`. -/
def typeNullable : TsType → Bool
  | .nullT => true
  | .union a b => typeNullable a || typeNullable b
  | .anyT => true
  | _ => false

/-- The kind of a top-level declaration in the declaration surface. -/
inductive DeclKind where
  | interfaceK
  | typeAliasK
  | classK
deriving DecidableEq, Repr

/-- One exported top-level declaration of the declaration surface: its
exported name, its kind, and whether it occurs in an ambient
(declaration-only) context, which all declarations of this file do. -/
structure ExportDecl where
  name : String
  kind : DeclKind
  ambient : Bool
deriving DecidableEq, Repr

/-- The exported declarations of the declaration surface of src/quill.ts
(lines 43-252), in source order.  `RangeStatic` appears twice because the
source declares it both as an interface (line 148) and as a class
(line 153). -/
def quillExportDecls : List ExportDecl :=
  [⟨"DeltaOperation", .typeAliasK, true⟩,
   ⟨"Sources", .typeAliasK, true⟩,
   ⟨"Key", .interfaceK, true⟩,
   ⟨"StringMap", .interfaceK, true⟩,
   ⟨"OptionalAttributes", .interfaceK, true⟩,
   ⟨"TextChangeHandler", .typeAliasK, true⟩,
   ⟨"SelectionChangeHandler", .typeAliasK, true⟩,
   ⟨"EditorChangeHandler", .typeAliasK, true⟩,
   ⟨"KeyboardStatic", .interfaceK, true⟩,
   ⟨"ClipboardMatcherCallback", .typeAliasK, true⟩,
   ⟨"ClipboardMatcherNode", .typeAliasK, true⟩,
   ⟨"ClipboardStatic", .interfaceK, true⟩,
   ⟨"QuillOptionsStatic", .interfaceK, true⟩,
   ⟨"BoundsStatic", .interfaceK, true⟩,
   ⟨"RangeStatic", .interfaceK, true⟩,
   ⟨"RangeStatic", .classK, true⟩,
   ⟨"EventEmitter", .interfaceK, true⟩,
   ⟨"Quill", .classK, true⟩]

/-- Whether an exported declaration is type-only: the interfaces and type
aliases are; a class declaration also declares a value. -/
def isTypeOnly (d : ExportDecl) : Bool :=
  d.kind == .interfaceK || d.kind == .typeAliasK

/-- TypeScript emission semantics for a top-level declaration: interfaces
and type aliases are erased at compile time and emit no JavaScript; a
class declaration emits code only outside an ambient context. -/
def emitsRuntimeCode (d : ExportDecl) : Bool :=
  match d.kind with
  | .interfaceK => false
  | .typeAliasK => false
  | .classK => !d.ambient

/-- The effect of loading one declaration on a runtime state, modelled as
the list of side effects performed so far: a declaration that emits no
code leaves the state untouched. -/
def runDeclEffect (state : List String) (d : ExportDecl) : List String :=
  if emitsRuntimeCode d then d.name :: state else state

/-- A candidate `DeltaOperation` value: each of the four declared fields
independently present or absent. -/
structure DeltaOpVal where
  insertV : Option RtVal
  deleteV : Option Int
  retainV : Option Int
  attributesV : Option (List String)
deriving DecidableEq, Repr

/-- The runtime object a `DeltaOpVal` denotes, with each present field
carrying a value of that field's declared type. -/
def DeltaOpVal.toObj (v : DeltaOpVal) : RtObj :=
  (match v.insertV with | some x => [("insert", x)] | none => []) ++
  (match v.deleteV with | some n => [("delete", RtVal.num n)] | none => []) ++
  (match v.retainV with | some n => [("retain", RtVal.num n)] | none => []) ++
  (match v.attributesV with | some ks => [("attributes", RtVal.objV ks)] | none => [])

/-- How many of the three operation fields `insert`, `delete`, `retain`
an object carries. -/
def opFieldCount (obj : RtObj) : Nat :=
  (if (List.lookup "insert" obj).isSome then 1 else 0) +
  (if (List.lookup "delete" obj).isSome then 1 else 0) +
  (if (List.lookup "retain" obj).isSome then 1 else 0)

/-- The stricter discriminated-union reading mentioned in the source
comment at src/quill.ts lines 36-42:
`({ insert: any } | { delete: number } | { retain: number }) & OptionalAttributes`,
which an object satisfies only when it carries exactly one of the three
operation fields (with the declared types). -/
def strictDeltaOpConforms (obj : RtObj) : Bool :=
  opFieldCount obj == 1 && conforms deltaOperationFields obj

/-- Modelled from the spec: the exported editor constructor is
characterized, for the purposes of the registration contract, by the set
of formatting modules it pre-registers at module-import time.  The
construction and registration code lives in the core module (`./core`)
referenced by src/quill.ts line 1, which is not under src. -/
structure QuillCtor where
  preRegistered : List String
deriving DecidableEq, Repr

/-- Modelled from the spec: the upstream entry point registers the full
module set at import time (src/quill.ts lines 3-19 point to the upstream
quill.ts and to quill.reg.original.ts for the concrete list, neither of
which is under src); a representative full set is used here. -/
def upstreamDefaultFormats : List String :=
  ["bold", "italic", "underline", "strike", "background", "color", "font",
   "size", "header", "list", "link", "image", "video", "blockquote",
   "code-block", "script", "indent", "align", "direction", "formula"]

/-- Modelled from the spec: the constructor the upstream entry point
exports, with the full module set pre-registered. -/
def upstreamCtor : QuillCtor := ⟨upstreamDefaultFormats⟩

/-- The constructor this module's shim exports (src/quill.ts line 21):
the same constructor, with no formatting module pre-registered. -/
def shimCtor : QuillCtor := ⟨[]⟩

/-- Modelled from the spec: the observable editor state relevant to the
registration contract — which formats are registered on the instance, and
which format applications have taken effect. -/
structure EditorState where
  registeredFormats : List String
  appliedFormats : List (String × String)
deriving DecidableEq, Repr

/-- Modelled from the spec: constructing an editor from a constructor
starts with exactly the constructor's pre-registered formats and no
content formatting applied. -/
def construct (c : QuillCtor) : EditorState :=
  ⟨c.preRegistered, []⟩

/-- Modelled from the spec: the consuming application registers one
formatting module on an editor after construction. -/
def registerFormat (st : EditorState) (fmt : String) : EditorState :=
  { st with registeredFormats := fmt :: st.registeredFormats }

/-- Registering a list of formatting modules in order. -/
def registerAll (st : EditorState) (fmts : List String) : EditorState :=
  fmts.foldl registerFormat st

/-- Modelled from the spec: using a format (directly or via paste) only
takes effect when a module for it is registered; otherwise it has no
effect on the editor state. -/
def applyFormat (st : EditorState) (fmt val : String) : EditorState :=
  if st.registeredFormats.contains fmt then
    { st with appliedFormats := (fmt, val) :: st.appliedFormats }
  else
    st

/-- The statements of the shim module src/quill.ts (lines 1 and 21):
a default-import of the core constructor and a default re-export of the
same binding; `tryCatchStmt` is the statement form an error handler would
take, which the module does not contain. -/
inductive ShimStmt where
  | coreDefaultImport (binding fromPath : String)
  | defaultReExport (binding : String)
  | tryCatchStmt
deriving DecidableEq, Repr

/-- The statement list of src/quill.ts, in source order. -/
def quillShimStmts : List ShimStmt :=
  [.coreDefaultImport "Quill" "./core",
   .defaultReExport "Quill"]

/-- Whether a statement is a try/catch error handler. -/
def ShimStmt.isTryCatch : ShimStmt → Bool
  | .tryCatchStmt => true
  | _ => false

/-- The load-time semantics of the shim module: evaluating src/quill.ts
first loads the core module (whose result is either the constructor or a
load-time error) and then re-exports the loaded binding unchanged, with
no handler in between. -/
def loadShim (core : Except String QuillCtor) : Except String QuillCtor :=
  match core with
  | .error e => .error e
  | .ok q => .ok q

/-- The registered-format sets reachable by post-construction
registration: folding `registerFormat` prepends the reversed list. -/
theorem registerAll_registeredFormats (fmts : List String) (st : EditorState) :
    (registerAll st fmts).registeredFormats = fmts.reverse ++ st.registeredFormats := by
  induction fmts generalizing st with
  | nil => rfl
  | cons f rest ih =>
    simp [registerAll, List.foldl] at *
    rw [ih]
    simp [registerFormat]

/-- The content-mutation methods of the editor class: those whose use
changes document content or formatting. -/
def contentMutationMethods : List String :=
  ["deleteText", "insertEmbed", "insertText", "setContents", "setText",
   "updateContents", "format", "formatLine", "formatText", "removeFormat"]

/-- Claim C1: the default export is the upstream constructor except that
its set of pre-registered formatting modules is empty, and on an editor
constructed from it, using any format the consumer has not explicitly
registered after construction has no effect. -/
theorem c1_shim_ctor_no_preregistered_formats :
    shimCtor = { upstreamCtor with preRegistered := [] } ∧
    shimCtor.preRegistered = [] ∧
    ∀ (consumer : List String) (fmt val : String),
      fmt ∉ consumer →
      applyFormat (registerAll (construct shimCtor) consumer) fmt val
        = registerAll (construct shimCtor) consumer := by
  refine ⟨rfl, rfl, ?_⟩
  intro consumer fmt val h
  have hm : fmt ∉ (registerAll (construct shimCtor) consumer).registeredFormats := by
    rw [registerAll_registeredFormats]
    simp [construct, shimCtor]
    exact h
  simp [applyFormat, hm]

/-- Witness for C1 at a concrete input: with only bold registered by the
consumer, using the unregistered color format leaves the editor
unchanged. -/
theorem c1_shim_ctor_no_preregistered_formats_witness :
    "color" ∉ ["bold"] ∧
    applyFormat (registerAll (construct shimCtor) ["bold"]) "color" "red"
      = registerAll (construct shimCtor) ["bold"] :=
  ⟨by decide,
   c1_shim_ctor_no_preregistered_formats.2.2 ["bold"] "color" "red" (by decide)⟩

/-- Claim C2: every type-only export (interface or type alias) of the
declaration surface emits no runtime code, and loading all the type-only
exports leaves any runtime state unchanged. -/
theorem c2_type_only_exports_no_runtime_footprint :
    (quillExportDecls.all fun d => !(isTypeOnly d) || !(emitsRuntimeCode d)) = true ∧
    ∀ state : List String,
      (quillExportDecls.filter isTypeOnly).foldl runDeclEffect state = state :=
  ⟨rfl, fun _ => rfl⟩

/-- Claim C3: on the declared editor class, each of on, once and off has
overloads for exactly the three event names text-change, selection-change
and editor-change, the handler type of each overload is the handler alias
for that event's payload, and the class overloads coincide with the
EventEmitter interface the class implements. -/
theorem c3_event_subscription_overloads :
    eventNamesOf quillEventOverloads "on"
      = ["text-change", "selection-change", "editor-change"] ∧
    eventNamesOf quillEventOverloads "once"
      = ["text-change", "selection-change", "editor-change"] ∧
    eventNamesOf quillEventOverloads "off"
      = ["text-change", "selection-change", "editor-change"] ∧
    (["on", "once", "off"].all fun m =>
      handlersFor quillEventOverloads m "text-change" == [TextChangeHandler] &&
      handlersFor quillEventOverloads m "selection-change" == [SelectionChangeHandler] &&
      handlersFor quillEventOverloads m "editor-change" == [EditorChangeHandler]) = true ∧
    quillEventOverloads = eventEmitterOverloads :=
  ⟨rfl, rfl, rfl, rfl, rfl⟩

/-- Claim C4: the shim contains no error handling — none of its statements
is a try/catch — and its load-time semantics forwards the core module's
result unchanged, so any load-time error propagates as the same error. -/
theorem c4_no_error_handling_errors_propagate :
    (quillShimStmts.all fun s => !s.isTryCatch) = true ∧
    (∀ e : String, loadShim (Except.error e) = Except.error e) ∧
    ∀ core : Except String QuillCtor, loadShim core = core := by
  refine ⟨rfl, fun _ => rfl, ?_⟩
  intro core
  cases core <;> rfl

/-- Claim C5: the declared construction-options interface contains the
configuration fields debug, modules, placeholder, readOnly, theme,
formats, bounds and registry, each marked optional, and the empty options
object conforms to the interface. -/
theorem c5_options_fields_optional_empty_valid :
    (["debug", "modules", "placeholder", "readOnly", "theme", "formats",
      "bounds", "registry"].all fun n => fieldOptional quillOptionsStaticFields n) = true ∧
    conforms quillOptionsStaticFields ([] : List (String × RtVal)) = true :=
  ⟨rfl, rfl⟩

/-- Claim C6: the declared Range interface consists of exactly the two
required numeric fields index and length, and the companion class
declaration carries the same instance fields. -/
theorem c6_range_exactly_index_length :
    rangeStaticFields.map FieldDecl.name = ["index", "length"] ∧
    (rangeStaticFields.all fun f => decide (f.type = TsType.num) && !f.optional) = true ∧
    rangeStaticClassFields = rangeStaticFields :=
  ⟨rfl, rfl, rfl⟩

/-- Claim C7: the declared Bounds interface has exactly six fields, the
names top, right, bottom, left, width and height are each among them, and
every field is a required number. -/
theorem c7_bounds_six_numeric_fields :
    boundsStaticFields.length = 6 ∧
    (["top", "right", "bottom", "left", "width", "height"].all fun n =>
      boundsStaticFields.any fun f => f.name == n) = true ∧
    (boundsStaticFields.all fun f => decide (f.type = TsType.num) && !f.optional) = true :=
  ⟨rfl, rfl, rfl⟩

/-- Claim C8: all four DeltaOperation fields are optional, so every
well-typed combination of present fields conforms to the declared type —
including an object with none of insert, delete and retain, and one with
two of them — while the stricter discriminated-union reading rejects
exactly those two objects: the declared type does not enforce the
exactly-one-of discipline. -/
theorem c8_delta_operation_fields_optional :
    (∀ v : DeltaOpVal, conforms deltaOperationFields v.toObj = true) ∧
    (deltaOperationFields.all fun f => f.optional) = true ∧
    conforms deltaOperationFields (DeltaOpVal.toObj ⟨none, none, none, none⟩) = true ∧
    strictDeltaOpConforms (DeltaOpVal.toObj ⟨none, none, none, none⟩) = false ∧
    conforms deltaOperationFields
      (DeltaOpVal.toObj ⟨some (RtVal.str "a"), some 1, none, none⟩) = true ∧
    strictDeltaOpConforms
      (DeltaOpVal.toObj ⟨some (RtVal.str "a"), some 1, none, none⟩) = false := by
  refine ⟨?_, rfl, rfl, rfl, rfl, rfl⟩
  intro v
  obtain ⟨i, d, r, a⟩ := v
  cases i <;> cases d <;> cases r <;> cases a <;> rfl

/-- Claim C9: overload resolution for getSelection yields the non-nullable
Range type when the call passes focus true, and yields the nullable
Range-or-null type exactly for the remaining call shapes: focus false or
no argument. -/
theorem c9_getSelection_nullability :
    resolveBoolCall "getSelection" (some true) = some TsType.rangeStatic ∧
    typeNullable TsType.rangeStatic = false ∧
    resolveBoolCall "getSelection" (some false)
      = some (TsType.union .rangeStatic .nullT) ∧
    resolveBoolCall "getSelection" none
      = some (TsType.union .rangeStatic .nullT) ∧
    typeNullable (TsType.union .rangeStatic .nullT) = true :=
  ⟨rfl, rfl, rfl, rfl, rfl⟩

/-- Claim C10: each declared content-mutation method has at least one
overload, and every overload of each of them returns Delta — in
particular none of them returns void. -/
theorem c10_mutation_methods_return_delta :
    (contentMutationMethods.all fun n => quillMethods.any fun m => m.name == n) = true ∧
    (quillMethods.all fun m =>
      !(contentMutationMethods.contains m.name) ||
        (decide (m.ret = TsType.delta) && decide (m.ret ≠ TsType.voidT))) = true :=
  ⟨rfl, rfl⟩
